import Mathlib

/-!
Shallow embedding of `src/grade-generator.py`, an interactive grade
calculator.  Python floats are modelled by `ℚ` in the pure summarisation
core (every value produced by the validated input layer is an ordinary
finite decimal); the interactive input layer is modelled separately over
`PFloat`, which also has a NaN value, because the Python float parser
accepts the string nan and NaN comparisons all return false.  Console input
is modelled as a list of reply strings, one per prompt; file output is
modelled as the string of bytes written.
-/

/-- The `Assignment` dataclass (lines 11-16): one graded assignment.
`category` is `"FA"` or `"SA"`, `grade` lies in `[0, 100]`, `weight` is
positive; the types do not enforce those bounds, the input layer does. -/
structure Assignment where
  name : String
  category : String
  grade : ℚ
  weight : ℚ
deriving DecidableEq, Repr

/-- The computed property `Assignment.weighted_score` (lines 18-20):
`(grade / 100) * weight`. -/
def Assignment.weighted_score (a : Assignment) : ℚ :=
  (a.grade / 100) * a.weight

/-- Line 86: the sum of the weights of the formative assignments. -/
def fa_weight_of (assignments : List Assignment) : ℚ :=
  ((assignments.filter (fun a => decide (a.category = "FA"))).map (·.weight)).sum

/-- Line 87: the sum of the weights of the summative assignments. -/
def sa_weight_of (assignments : List Assignment) : ℚ :=
  ((assignments.filter (fun a => decide (a.category = "SA"))).map (·.weight)).sum

/-- Line 88: the sum of the weighted scores of the formative assignments. -/
def fa_total_of (assignments : List Assignment) : ℚ :=
  ((assignments.filter (fun a => decide (a.category = "FA"))).map Assignment.weighted_score).sum

/-- Line 89: the sum of the weighted scores of the summative assignments. -/
def sa_total_of (assignments : List Assignment) : ℚ :=
  ((assignments.filter (fun a => decide (a.category = "SA"))).map Assignment.weighted_score).sum

/-- The numeric and boolean results computed by `summarize` (lines 85-96). -/
structure Summary where
  fa_weight : ℚ
  sa_weight : ℚ
  fa_total : ℚ
  sa_total : ℚ
  final_grade : ℚ
  gpa : ℚ
  fa_pass : Bool
  sa_pass : Bool
  passed : Bool
deriving DecidableEq, Repr

/-- The computation part of `summarize` (lines 85-96): category weights and
totals, `final_grade = fa_total + sa_total`, `gpa = (final_grade / 100) * 5`,
the two pass flags and the overall verdict. -/
def summaryOf (assignments : List Assignment) : Summary :=
  let fa_weight := fa_weight_of assignments
  let sa_weight := sa_weight_of assignments
  let fa_total := fa_total_of assignments
  let sa_total := sa_total_of assignments
  let final_grade := fa_total + sa_total
  let gpa := (final_grade / 100) * 5
  let fa_pass := decide (fa_weight = 0) || decide (fa_total ≥ (0.5 : ℚ) * fa_weight)
  let sa_pass := decide (sa_weight = 0) || decide (sa_total ≥ (0.5 : ℚ) * sa_weight)
  { fa_weight := fa_weight
    sa_weight := sa_weight
    fa_total := fa_total
    sa_total := sa_total
    final_grade := final_grade
    gpa := gpa
    fa_pass := fa_pass
    sa_pass := sa_pass
    passed := fa_pass && sa_pass }

/-- Line 115: the failing formative assignments, i.e. the records with
category FA and grade below 50, in input order. -/
def failing_fa_of (assignments : List Assignment) : List Assignment :=
  assignments.filter (fun a => decide (a.category = "FA") && decide (a.grade < 50))

/-- Line 124: the maximum
weight in a list of assignments (Python's `max` of a non-empty sequence; the
`[]` case never arises in the source and defaults to `0`). -/
def max_weight_of : List Assignment → ℚ
  | [] => 0
  | a :: rest => rest.foldl (fun m b => max m b.weight) a.weight

/-- Line 125: the failing formative assignments whose weight equals the
maximum, tested with exact equality as Python's float equality is. -/
def top_failures_of (failing_fa : List Assignment) : List Assignment :=
  failing_fa.filter (fun a => decide (a.weight = max_weight_of failing_fa))

/-- The branching of `resubmission_message` after the failing-FA filter
(lines 116-131), as a function of the filtered list. -/
def resub_core (failing_fa : List Assignment) : String :=
  match failing_fa with
  | [] => "Resubmission: no failed formative assignments."
  | [a] => "Resubmission: " ++ a.name ++ " (FA) is eligible to resubmit."
  | _ =>
    match top_failures_of failing_fa with
    | [a] => "Resubmission: choose " ++ a.name ++ " (highest-weight failed FA)."
    | tops =>
      "Resubmission: choose one of " ++ String.intercalate ", " (tops.map (·.name))
        ++ " (tied highest-weight failed FAs)."

/-- Lines 113-131, the function named resubmission_message: filter the failing formative
assignments, then branch on their number and on the highest-weight ties. -/
def resubmission_message (assignments : List Assignment) : String :=
  resub_core (failing_fa_of assignments)

/-- The observable behaviour of one `summarize` call (lines 85-110): the
source computes the summary values, prints them together with the
resubmission note, and never writes to `assignments` or its records; the
embedding returns the computed results paired with the (unmodified) record
list that the caller still holds afterwards. -/
def summarize_run (assignments : List Assignment) :
    (Summary × String) × List Assignment :=
  ((summaryOf assignments, resubmission_message assignments), assignments)

/-! ### CSV output (lines 134-139, 150-151)

`write_csv` uses `csv.writer` with the default `excel` dialect: fields are
joined by `","`, each row ends in `"\r\n"`, and with `QUOTE_MINIMAL` a field
is wrapped in double quotes, inner double quotes doubled, exactly when it
contains a comma, a double quote, or a line-terminator character.  Numeric
fields go through Python two-decimal fixed formatting; on the exact
rationals of this model that is rounding to two decimals with ties to
even. -/

/-- Whether `csv.writer` must quote a field under `QUOTE_MINIMAL`. -/
def csv_needs_quote (s : String) : Bool :=
  s.data.any (fun c => c = ',' || c = '"' || c = '\r' || c = '\n')

/-- One character of a quoted CSV field: double quotes are doubled. -/
def csv_escape_char (c : Char) : String :=
  if c = '"' then "\"\"" else String.singleton c

/-- A single CSV field as `csv.writer` renders it. -/
def csv_escape (s : String) : String :=
  if csv_needs_quote s then "\"" ++ String.join (s.data.map csv_escape_char) ++ "\"" else s

/-- One writerow call: escaped fields joined by commas, the line ended by
CRLF, the excel dialect's terminator. -/
def csv_row (fields : List String) : String :=
  String.intercalate "," (fields.map csv_escape) ++ "\r\n"

/-- Rounding of a rational times 100 to an integer with ties to even, computed on
the numerator and denominator so the definition evaluates: this is the value
whose digits two-decimal fixed formatting prints. -/
def round2 (q : ℚ) : ℤ :=
  let n := q.num * 100
  let d := (q.den : ℤ)
  let f := n.fdiv d
  let r2 := 2 * (n - f * d)
  if r2 < d then f else if d < r2 then f + 1 else if f % 2 = 0 then f else f + 1

/-- Python two-decimal fixed formatting: sign, integer digits, a dot, exactly
two decimal digits. -/
def format2 (q : ℚ) : String :=
  let n := round2 q
  let m := n.natAbs
  (if n < 0 then "-" else "") ++ toString (m / 100) ++ "."
    ++ (if m % 100 < 10 then "0" else "") ++ toString (m % 100)

/-- Lines 134-139, the function named write_csv: the bytes written to the file — a header row
`Assignment,Category,Grade,Weight` then one row per assignment in input
order with name, category, and the two numbers formatted to two decimals. -/
def write_csv (assignments : List Assignment) : String :=
  csv_row ["Assignment", "Category", "Grade", "Weight"]
    ++ String.join (assignments.map (fun a =>
        csv_row [a.name, a.category, format2 a.grade, format2 a.weight]))

/-- Line 150: the default output filename,
resolved in the working directory. -/
def grades_csv_path : String := "grades.csv"

/-- Modelled from the claim's words, not from the source: a header row
reading `Assignment, Category, Grade, Weight` byte for byte, then one row
per record whose four fields are joined by commas, the numeric fields with
exactly two decimal digits.  Used only to compare the claimed bytes with
`write_csv`. -/
def write_csv_claimed (assignments : List Assignment) : String :=
  "Assignment, Category, Grade, Weight\r\n"
    ++ String.join (assignments.map (fun a =>
        a.name ++ "," ++ a.category ++ "," ++ format2 a.grade ++ ","
          ++ format2 a.weight ++ "\r\n"))

/-! ### The interactive input layer (lines 23-82)

Console input is a list of reply strings, one per `input()` call; a prompt
function consumes replies until one validates, and returns `none` when the
replies run out (in the source, `input()` at end of input raises and the
program dies, so no record list is ever returned on that path).  Numbers are
Python floats: `float(raw)` can return NaN (`float("nan")`), and every
comparison against NaN is `False`, so `PFloat` extends `ℚ` with a `nan`
point and comparison functions that mirror IEEE semantics.  The `float`
parser itself is left as a parameter `parse`; any function
`String → Option PFloat` may stand for it.  Python's `str.strip`,
`str.upper` and `str.lower` are modelled character-wise (the source only
compares ASCII tokens such as `"FA"`, `"y"`, `"yes"`). -/

/-- Whitespace as Python str.strip sees it (the ASCII part, all the source needs). -/
def isPySpace (c : Char) : Bool :=
  c = ' ' || c = '\t' || c = '\n' || c = '\r' || c = '\x0b' || c = '\x0c'

/-- Model of the Python method str.strip. -/
def pyStrip (s : String) : String :=
  ⟨((s.data.dropWhile isPySpace).reverse.dropWhile isPySpace).reverse⟩

/-- Model of the Python method str.upper on one ASCII character. -/
def pyUpperChar (c : Char) : Char :=
  if 'a' ≤ c ∧ c ≤ 'z' then Char.ofNat (c.toNat - 32) else c

/-- Model of the Python method str.lower on one ASCII character. -/
def pyLowerChar (c : Char) : Char :=
  if 'A' ≤ c ∧ c ≤ 'Z' then Char.ofNat (c.toNat + 32) else c

/-- Model of the Python method str.upper. -/
def pyUpper (s : String) : String := ⟨s.data.map pyUpperChar⟩

/-- Model of the Python method str.lower. -/
def pyLower (s : String) : String := ⟨s.data.map pyLowerChar⟩

/-- A Python float as the input layer sees it: an exact rational, or NaN. -/
inductive PFloat where
  | rat : ℚ → PFloat
  | nan : PFloat
deriving DecidableEq, Repr

/-- Strictly-less on Python floats: any comparison with NaN is false. -/
def PFloat.lt : PFloat → PFloat → Bool
  | .rat a, .rat b => decide (a < b)
  | _, _ => false

/-- Less-or-equal on Python floats: any comparison with NaN is false. -/
def PFloat.le : PFloat → PFloat → Bool
  | .rat a, .rat b => decide (a ≤ b)
  | _, _ => false

/-- Strictly-greater on Python floats: any comparison with NaN is false. -/
def PFloat.gt : PFloat → PFloat → Bool
  | .rat a, .rat b => decide (b < a)
  | _, _ => false

/-- A record as built by `collect_assignments` (line 76), before any claim
about validity: the numeric fields are raw parsed floats. -/
structure AssignmentF where
  name : String
  category : String
  grade : PFloat
  weight : PFloat
deriving DecidableEq, Repr

/-- The data-model invariant the spec states for records handed to the
summarizer: non-empty name, category `"FA"` or `"SA"`, grade an ordinary
number in `[0, 100]`, weight an ordinary positive number. -/
def valid_record (a : AssignmentF) : Prop :=
  a.name ≠ "" ∧ (a.category = "FA" ∨ a.category = "SA")
    ∧ (∃ q, a.grade = .rat q ∧ 0 ≤ q ∧ q ≤ 100)
    ∧ (∃ q, a.weight = .rat q ∧ 0 < q)

/-- Lines 23-28, the function named prompt_non_empty: read replies until one strips to a
non-empty string; return it with the remaining replies. -/
def prompt_non_empty : List String → Option (String × List String)
  | [] => none
  | s :: rest =>
    if pyStrip s ≠ "" then some (pyStrip s, rest) else prompt_non_empty rest

/-- Lines 31-36, the function named prompt_category: read replies until one strips and
upcases to `"FA"` or `"SA"`. -/
def prompt_category : List String → Option (String × List String)
  | [] => none
  | s :: rest =>
    let category := pyUpper (pyStrip s)
    if category = "FA" ∨ category = "SA" then some (category, rest)
    else prompt_category rest

/-- Lines 39-63, the function named prompt_float: read replies until one parses as a float
and passes the bound checks — with `strict_greater`, reject `value <=
min_value`, otherwise reject `value < min_value`; reject `value > max_value`
when a maximum is given.  All three comparisons are Python float
comparisons, hence always `False` on NaN. -/
def prompt_float (parse : String → Option PFloat)
    (min_value max_value : Option PFloat) (strict_greater : Bool) :
    List String → Option (PFloat × List String)
  | [] => none
  | s :: rest =>
    match parse (pyStrip s) with
    | none => prompt_float parse min_value max_value strict_greater rest
    | some value =>
      if ((match min_value with
           | some m => (strict_greater && PFloat.le value m)
               || (!strict_greater && PFloat.lt value m)
           | none => false)
          || (match max_value with
              | some m => PFloat.gt value m
              | none => false)) then
        prompt_float parse min_value max_value strict_greater rest
      else
        some (value, rest)

/-- The loop body of `collect_assignments` (lines 70-80), with a fuel
parameter to make the recursion structural: each iteration prompts for name,
category, grade (bounds `0` to `100`), weight (strictly greater than `0`),
appends the record, then reads the continue reply; `"y"`, `"yes"` and `""`
(after strip and lower) continue the loop, anything else returns.  `none`
models the program dying on exhausted input; `collect_assignments` supplies
enough fuel that fuel exhaustion implies input exhaustion. -/
def collect_loop (parse : String → Option PFloat) :
    ℕ → List String → List AssignmentF →
    Option (List AssignmentF × List String)
  | 0, _, _ => none
  | fuel + 1, inputs, acc =>
    match prompt_non_empty inputs with
    | none => none
    | some (name, r1) =>
      match prompt_category r1 with
      | none => none
      | some (category, r2) =>
        match prompt_float parse (some (.rat 0)) (some (.rat 100)) false r2 with
        | none => none
        | some (grade, r3) =>
          match prompt_float parse (some (.rat 0)) none true r3 with
          | none => none
          | some (weight, r4) =>
            let acc2 := acc ++ [⟨name, category, grade, weight⟩]
            match r4 with
            | [] => none
            | again :: r5 =>
              if pyLower (pyStrip again) = "y" ∨ pyLower (pyStrip again) = "yes"
                  ∨ pyLower (pyStrip again) = "" then
                collect_loop parse fuel r5 acc2
              else
                some (acc2, r5)

/-- Lines 66-82, the whole input collection, on a finite reply list. -/
def collect_assignments (parse : String → Option PFloat)
    (inputs : List String) : Option (List AssignmentF × List String) :=
  collect_loop parse (inputs.length + 1) inputs []

/-- The `if not assignments` guard of `main` (line 144): `true` when
`collect_assignments` returns and the returned list is empty, so that the
"No assignments were entered" branch runs. -/
def main_empty_guard (parse : String → Option PFloat)
    (inputs : List String) : Bool :=
  match collect_assignments parse inputs with
  | some (records, _) => records.isEmpty
  | none => false

/-- A concrete stand-in for the Python float parser on the few strings the
concrete runs below use: the string nan parses to NaN, exactly as the
Python float constructor does. -/
def parse_stub (s : String) : Option PFloat :=
  if s = "80" then some (.rat 80)
  else if s = "60" then some (.rat 60)
  else if s = "40" then some (.rat 40)
  else if s = "10" then some (.rat 10)
  else if s = "nan" then some .nan
  else none

/-- Projection to the name and weight: all the data of a record that the
resubmission message can mention. -/
def name_weight (a : Assignment) : String × ℚ := (a.name, a.weight)

/-- Companion of max_weight_of transported along name_weight: maximum of the second
components (weight) of a non-empty pair list, `0` on `[]`. -/
def max_weight_pairs : List (String × ℚ) → ℚ
  | [] => 0
  | p :: rest => rest.foldl (fun m b => max m b.2) p.2

/-- Companion of resub_core transported along name_weight: the same branching on a
list of (name, weight) pairs.  Used to show the message reads nothing but
the names and weights of the failing formative records. -/
def resub_pairs_core (ps : List (String × ℚ)) : String :=
  match ps with
  | [] => "Resubmission: no failed formative assignments."
  | [p] => "Resubmission: " ++ p.1 ++ " (FA) is eligible to resubmit."
  | _ =>
    match ps.filter (fun p => decide (p.2 = max_weight_pairs ps)) with
    | [p] => "Resubmission: choose " ++ p.1 ++ " (highest-weight failed FA)."
    | tops =>
      "Resubmission: choose one of " ++ String.intercalate ", " (tops.map (·.1))
        ++ " (tied highest-weight failed FAs)."

/-! ## Theorems -/

/-- C1: for every record list the summary satisfies
`final_grade = fa_total + sa_total` exactly, where `fa_total` (resp.
`sa_total`) is the sum of `weighted_score` over the records with category
`"FA"` (resp. `"SA"`), and each record's `weighted_score` is
`(grade / 100) * weight`. -/
theorem C1_final_grade_decomposition (l : List Assignment) :
    (summaryOf l).final_grade = (summaryOf l).fa_total + (summaryOf l).sa_total
      ∧ (summaryOf l).fa_total
        = ((l.filter (fun a => decide (a.category = "FA"))).map Assignment.weighted_score).sum
      ∧ (summaryOf l).sa_total
        = ((l.filter (fun a => decide (a.category = "SA"))).map Assignment.weighted_score).sum
      ∧ ∀ a : Assignment, a.weighted_score = (a.grade / 100) * a.weight :=
  ⟨rfl, rfl, rfl, fun _ => rfl⟩

/-- C3: the FA pass flag holds iff the FA weight is zero or
`fa_total ≥ 0.5 * fa_weight`, identically for `sa_pass`;
`passed = fa_pass AND sa_pass`; and a category of zero total weight always
passes. -/
theorem C3_pass_flags (l : List Assignment) :
    ((summaryOf l).fa_pass = true ↔
      ((summaryOf l).fa_weight = 0
        ∨ (summaryOf l).fa_total ≥ (0.5 : ℚ) * (summaryOf l).fa_weight))
    ∧ ((summaryOf l).sa_pass = true ↔
      ((summaryOf l).sa_weight = 0
        ∨ (summaryOf l).sa_total ≥ (0.5 : ℚ) * (summaryOf l).sa_weight))
    ∧ (summaryOf l).passed = ((summaryOf l).fa_pass && (summaryOf l).sa_pass)
    ∧ ((summaryOf l).fa_weight = 0 → (summaryOf l).fa_pass = true)
    ∧ ((summaryOf l).sa_weight = 0 → (summaryOf l).sa_pass = true) := by
  refine ⟨?_, ?_, rfl, ?_, ?_⟩
  · simp [summaryOf]
  · simp [summaryOf]
  · intro h
    simp only [summaryOf] at h ⊢
    simp [h]
  · intro h
    simp only [summaryOf] at h ⊢
    simp [h]

/-- Witness for C3: on a list with no formative assignment the FA weight is
zero and the FA pass flag is true. -/
theorem C3_pass_flags_witness :
    (summaryOf [⟨"exam", "SA", 60, 80⟩]).fa_weight = 0
      ∧ (summaryOf [⟨"exam", "SA", 60, 80⟩]).fa_pass = true :=
  ⟨rfl, (C3_pass_flags [⟨"exam", "SA", 60, 80⟩]).2.2.2.1 rfl⟩

/-- C4: the scaled score is the final grade over 100 times 5 for every record list,
and the score is not clamped: a single summative assignment of grade `100`
and weight `200` has total weight above `100` and scaled score above `5`. -/
theorem C4_scaled_score (l : List Assignment) :
    (summaryOf l).gpa = ((summaryOf l).final_grade / 100) * 5
      ∧ (summaryOf [⟨"proj", "SA", 100, 200⟩]).fa_weight
          + (summaryOf [⟨"proj", "SA", 100, 200⟩]).sa_weight > 100
      ∧ (summaryOf [⟨"proj", "SA", 100, 200⟩]).gpa > 5 := by
  refine ⟨rfl, ?_, ?_⟩
  · simp [summaryOf, fa_weight_of, sa_weight_of, List.filter]
    norm_num
  · simp [summaryOf, fa_total_of, sa_total_of, Assignment.weighted_score, List.filter]
    norm_num

/-- C6: the scenario of one FA record (grade 80, weight 20) and one SA
record (grade 60, weight 80): totals 16 and 48, final grade 64, scaled
score 3.2, both pass flags and the verdict true, and the resubmission
message reporting no failed formative assignments. -/
theorem C6_example_scenario :
    (summaryOf [⟨"hw1", "FA", 80, 20⟩, ⟨"exam", "SA", 60, 80⟩]).fa_total = 16
      ∧ (summaryOf [⟨"hw1", "FA", 80, 20⟩, ⟨"exam", "SA", 60, 80⟩]).sa_total = 48
      ∧ (summaryOf [⟨"hw1", "FA", 80, 20⟩, ⟨"exam", "SA", 60, 80⟩]).final_grade = 64
      ∧ (summaryOf [⟨"hw1", "FA", 80, 20⟩, ⟨"exam", "SA", 60, 80⟩]).gpa = 3.2
      ∧ (summaryOf [⟨"hw1", "FA", 80, 20⟩, ⟨"exam", "SA", 60, 80⟩]).fa_pass = true
      ∧ (summaryOf [⟨"hw1", "FA", 80, 20⟩, ⟨"exam", "SA", 60, 80⟩]).sa_pass = true
      ∧ (summaryOf [⟨"hw1", "FA", 80, 20⟩, ⟨"exam", "SA", 60, 80⟩]).passed = true
      ∧ resubmission_message [⟨"hw1", "FA", 80, 20⟩, ⟨"exam", "SA", 60, 80⟩]
          = "Resubmission: no failed formative assignments." := by
  refine ⟨?_, ?_, ?_, ?_, ?_, ?_, ?_, rfl⟩ <;>
    · simp [summaryOf, fa_weight_of, sa_weight_of, fa_total_of, sa_total_of,
        Assignment.weighted_score, List.filter]
      norm_num

/-- C8: summarisation is a pure, deterministic function of the record
list: the list a caller holds after a run is the list it passed in, and
running again on that list returns identical results. -/
theorem C8_pure_deterministic (l : List Assignment) :
    (summarize_run l).2 = l
      ∧ (summarize_run ((summarize_run l).2)).1 = (summarize_run l).1 :=
  ⟨rfl, rfl⟩

/-- C2: the resubmission recommendation follows exactly the specified case
analysis — with F the formative records of grade below 50 (in input order, a
sublist of the input), an empty F reports no failed formative assignments, a
singleton F recommends that assignment by name, and otherwise, with T the
members of F of maximal weight under exact equality, a singleton T is
recommended as the highest-weight failed formative and a larger T is listed,
names joined by a comma and a space in input order, as tied. -/
theorem C2_resubmission_cases (l : List Assignment) :
    (failing_fa_of l = [] →
      resubmission_message l = "Resubmission: no failed formative assignments.")
    ∧ (∀ a, failing_fa_of l = [a] →
      resubmission_message l = "Resubmission: " ++ a.name ++ " (FA) is eligible to resubmit.")
    ∧ (2 ≤ (failing_fa_of l).length →
      (∀ a, top_failures_of (failing_fa_of l) = [a] →
        resubmission_message l
          = "Resubmission: choose " ++ a.name ++ " (highest-weight failed FA).")
      ∧ (2 ≤ (top_failures_of (failing_fa_of l)).length →
        resubmission_message l = "Resubmission: choose one of "
          ++ String.intercalate ", " ((top_failures_of (failing_fa_of l)).map (fun a => a.name))
          ++ " (tied highest-weight failed FAs)."))
    ∧ (failing_fa_of l).Sublist l
    ∧ (top_failures_of (failing_fa_of l)).Sublist (failing_fa_of l) := by
  refine ⟨?_, ?_, ?_, List.filter_sublist l, List.filter_sublist _⟩
  · intro h
    unfold resubmission_message
    rw [h]
    rfl
  · intro a h
    unfold resubmission_message
    rw [h]
    rfl
  · intro h2
    rcases hfl : failing_fa_of l with _ | ⟨x, _ | ⟨y, rest⟩⟩
    · rw [hfl] at h2; simp at h2
    · rw [hfl] at h2; simp at h2
    · have hm : resubmission_message l = resub_core (x :: y :: rest) := by
        unfold resubmission_message
        rw [hfl]
      constructor
      · intro a hT
        rw [hm]
        simp only [resub_core]
        rw [hT]
      · intro hlen
        rcases hT : top_failures_of (x :: y :: rest) with _ | ⟨p, _ | ⟨q, ts⟩⟩
        · rw [hT] at hlen; simp at hlen
        · rw [hT] at hlen; simp at hlen
        · rw [hm]
          simp only [resub_core]
          rw [hT]

/-- Witness for C2: two failed formative assignments of equal weight 30 tie,
and the message lists both names in input order. -/
theorem C2_resubmission_cases_witness :
    2 ≤ (failing_fa_of [⟨"a", "FA", 40, 30⟩, ⟨"b", "FA", 45, 30⟩]).length
      ∧ 2 ≤ (top_failures_of (failing_fa_of [⟨"a", "FA", 40, 30⟩, ⟨"b", "FA", 45, 30⟩])).length
      ∧ resubmission_message [⟨"a", "FA", 40, 30⟩, ⟨"b", "FA", 45, 30⟩]
          = "Resubmission: choose one of a, b (tied highest-weight failed FAs)." :=
  ⟨by decide, by decide,
    ((C2_resubmission_cases [⟨"a", "FA", 40, 30⟩, ⟨"b", "FA", 45, 30⟩]).2.2.1
        (by decide)).2 (by decide)⟩

theorem max_weight_of_map (fl : List Assignment) :
    max_weight_pairs (fl.map name_weight) = max_weight_of fl := by
  cases fl with
  | nil => rfl
  | cons a rest =>
    simp only [List.map_cons, max_weight_pairs, max_weight_of, List.foldl_map, name_weight]

theorem top_failures_of_map (fl : List Assignment) :
    (top_failures_of fl).map name_weight
      = (fl.map name_weight).filter
          (fun p => decide (p.2 = max_weight_pairs (fl.map name_weight))) := by
  rw [top_failures_of, max_weight_of_map, List.filter_map]
  rfl

theorem resub_core_proj (fl : List Assignment) :
    resub_core fl = resub_pairs_core (fl.map name_weight) := by
  rcases fl with _ | ⟨x, _ | ⟨y, rest⟩⟩
  · rfl
  · rfl
  · have h := top_failures_of_map (x :: y :: rest)
    simp only [List.map_cons] at h ⊢
    simp only [resub_core, resub_pairs_core]
    rw [← h]
    rcases hT : top_failures_of (x :: y :: rest) with _ | ⟨p, _ | ⟨q, ts⟩⟩
    · rfl
    · rfl
    · simp only [List.map_cons, List.map_map]
      rfl

/-- C10: the resubmission message depends only on the names and weights, in
order, of the failing formative records — two inputs whose failing
formative sublists project to the same name-weight sequence get the
identical message; adding, removing or changing other records (summative
ones, or formative ones with grade at least 50) never changes it. -/
theorem C10_message_depends_only_on_failing_fa (l1 l2 : List Assignment)
    (h : (failing_fa_of l1).map name_weight = (failing_fa_of l2).map name_weight) :
    resubmission_message l1 = resubmission_message l2 := by
  unfold resubmission_message
  rw [resub_core_proj, resub_core_proj, h]

/-- Witness for C10: dropping a summative record and changing a failing
grade from 40 to 45 leaves the failing name-weight sequence, and hence the
message, unchanged. -/
theorem C10_message_depends_only_on_failing_fa_witness :
    (failing_fa_of [⟨"a", "FA", 40, 30⟩, ⟨"s", "SA", 90, 50⟩]).map name_weight
        = (failing_fa_of [⟨"a", "FA", 45, 30⟩]).map name_weight
      ∧ resubmission_message [⟨"a", "FA", 40, 30⟩, ⟨"s", "SA", 90, 50⟩]
        = resubmission_message [⟨"a", "FA", 45, 30⟩] :=
  ⟨by decide,
    C10_message_depends_only_on_failing_fa
      [⟨"a", "FA", 40, 30⟩, ⟨"s", "SA", 90, 50⟩] [⟨"a", "FA", 45, 30⟩] (by decide)⟩

theorem collect_loop_grows (parse : String → Option PFloat) :
    ∀ (fuel : ℕ) (inputs : List String) (acc recs : List AssignmentF)
      (rest : List String),
      collect_loop parse fuel inputs acc = some (recs, rest) →
      acc.length + 1 ≤ recs.length := by
  intro fuel
  induction fuel with
  | zero =>
    intro inputs acc recs rest h
    simp [collect_loop] at h
  | succ n ih =>
    intro inputs acc recs rest h
    simp only [collect_loop] at h
    split at h
    · exact absurd h (by simp)
    · split at h
      · exact absurd h (by simp)
      · split at h
        · exact absurd h (by simp)
        · split at h
          · exact absurd h (by simp)
          · split at h
            · exact absurd h (by simp)
            · split at h
              · have := ih _ _ _ _ h
                simp at this ⊢
                omega
              · simp only [Option.some_inj, Prod.mk.injEq] at h
                obtain ⟨h1, h2⟩ := h
                subst h1
                simp

/-- C9: whenever the input-collection loop returns, the returned record
list holds at least one record, so the empty-list guard at the program
entry point never fires and the summariser is never reached with an empty
sequence. -/
theorem C9_collect_nonempty (parse : String → Option PFloat) (inputs : List String) :
    (∀ recs rest, collect_assignments parse inputs = some (recs, rest) → recs ≠ [])
      ∧ main_empty_guard parse inputs = false := by
  constructor
  · intro recs rest h hnil
    have := collect_loop_grows parse _ _ _ _ _ h
    rw [hnil] at this
    simp at this
  · unfold main_empty_guard
    cases hc : collect_assignments parse inputs with
    | none => rfl
    | some pr =>
      obtain ⟨recs, rest⟩ := pr
      have := collect_loop_grows parse _ _ _ _ _ hc
      cases recs with
      | nil => simp at this
      | cons a t => rfl

/-- Witness for C9: a concrete five-reply session returns exactly one
record, and the empty guard is off. -/
theorem C9_collect_nonempty_witness :
    collect_assignments parse_stub ["hw", "fa", "80", "10", "n"]
        = some ([⟨"hw", "FA", PFloat.rat 80, PFloat.rat 10⟩], [])
      ∧ ([⟨"hw", "FA", PFloat.rat 80, PFloat.rat 10⟩] : List AssignmentF) ≠ []
      ∧ main_empty_guard parse_stub ["hw", "fa", "80", "10", "n"] = false := by
  refine ⟨by decide, ?_, (C9_collect_nonempty parse_stub ["hw", "fa", "80", "10", "n"]).2⟩
  exact (C9_collect_nonempty parse_stub ["hw", "fa", "80", "10", "n"]).1
    [⟨"hw", "FA", PFloat.rat 80, PFloat.rat 10⟩] [] (by decide)

/-- C7 (code bug): a session that answers nan to the grade prompt is
accepted — NaN fails neither bound check because every comparison with NaN
is false — and produces a record whose grade is NaN, violating the
documented invariant that every created record has its grade in the range
0 to 100. -/
theorem C7_nan_grade_accepted :
    collect_assignments parse_stub ["hw", "FA", "nan", "10", "n"]
        = some ([⟨"hw", "FA", PFloat.nan, PFloat.rat 10⟩], [])
      ∧ ¬ valid_record ⟨"hw", "FA", PFloat.nan, PFloat.rat 10⟩ := by
  refine ⟨by decide, ?_⟩
  rintro ⟨-, -, ⟨q, hq, -, -⟩, -⟩
  exact PFloat.noConfusion hq

/-- Counterexample for C5: on a one-record list the bytes the export
actually writes differ from the claimed bytes — the real header has no
spaces after its commas. -/
theorem C5_csv_counterexample :
    write_csv [⟨"hw", "FA", 50, 10⟩] ≠ write_csv_claimed [⟨"hw", "FA", 50, 10⟩] := by
  decide

/-- C5 (amended): the CSV export writes exactly a header row reading
Assignment,Category,Grade,Weight — no spaces after the commas — then one
row per record in input order with fields name, category, grade, weight,
the numeric fields with exactly two decimal digits, each field double
quoted with inner quotes doubled exactly when it contains a comma, a double
quote or a newline character, every row ending in CRLF; the default
filename is grades.csv in the working directory. -/
theorem C5_csv_bytes (l : List Assignment) :
    write_csv l = "Assignment,Category,Grade,Weight\r\n"
        ++ String.join (l.map (fun a =>
            csv_escape a.name ++ "," ++ csv_escape a.category ++ ","
              ++ csv_escape (format2 a.grade) ++ "," ++ csv_escape (format2 a.weight)
              ++ "\r\n"))
      ∧ grades_csv_path = "grades.csv" := by
  refine ⟨?_, rfl⟩
  unfold write_csv
  rfl
